import Mathlib

/-!
Verification of the dispute-resolution core of the MCP_Payment_idea repository.

The development shallowly embeds the Python code:

* `crew_ai_app/agents/dispute_decision_agent.py`
  (`_extract_amount_usd`, `_calculate_transaction_age_days`,
  `_determine_case_status`, `DisputeCaseCreationTool._run`, `process_dispute`);
* `crew_ai_app/db/dynamo_client.py`
  (`async_retry`, `get_case_by_transaction`, `get_open_case_for_transaction`,
  `create_case`);
* `mcp/tools/dynamo_query_tool.py` (`DynamoQueryCreatorTool._run` and its
  `_execute_*` helpers).

Embedding conventions:

* Python floats are modelled as `Rat` (the code only compares and copies
  amounts); machine ints as `Int`.
* ISO-8601 date strings are modelled by their parse result: `Option Int` is
  the day number obtained from `datetime.fromisoformat`, `none` standing for
  a missing or unparseable string (`fromisoformat` raising).  "now" is an
  explicit `Int` day-number parameter; `(now - txn).days` becomes `now - d`.
* The DynamoDB case table is a list of cases kept most-recent-first:
  `create_case`'s `put_item` prepends, and the `TransactionIndex` query with
  `ScanIndexForward=False` (latest first) therefore returns the matching
  cases in list order, so the code's `items[0]` is the head of the filtered
  list.
* I/O failure is made explicit: `readOk = false` means the store query
  raised inside `get_case_by_transaction`, `persistOk = false` means
  `create_case`'s `put_item` raised (the code catches both).
* `uuid.uuid4()` and `datetime.utcnow().isoformat()` are nondeterministic;
  they enter the model as explicit parameters (`freshId`, `createdAt`).
-/

namespace MCPPayment

/-- A Python value stored in a transaction-record field, as discriminated by
`_extract_amount_usd`: a `str`, a numeric (`int`/`float`/`Decimal`), or any
other type (which the extraction loop skips). -/
inductive PyValue where
  | pstr (s : String)
  | pnum (q : Rat)
  | pother
deriving DecidableEq

/-- Fold a list of decimal digit characters into a natural number. -/
def digitsToNat (cs : List Char) : Nat :=
  cs.foldl (fun a c => a * 10 + (c.toNat - 48)) 0

/-- Model of Python `float(s)` on plain decimal literals: optional sign,
digits, optional single fractional part.  `none` models `float` raising
`ValueError`. -/
def parseFloat? (s : String) : Option Rat :=
  let cs := s.toList
  let signAndRest : Rat × List Char :=
    match cs with
    | '-' :: rest => (-1, rest)
    | '+' :: rest => (1, rest)
    | _ => (1, cs)
  let sign := signAndRest.1
  let body := signAndRest.2
  let intPart := body.takeWhile (fun c => c.isDigit)
  let rest := body.dropWhile (fun c => c.isDigit)
  match rest with
  | [] =>
    if intPart.isEmpty then none
    else some (sign * (digitsToNat intPart : Rat))
  | '.' :: frac =>
    if frac.all (fun c => c.isDigit) && !(intPart.isEmpty && frac.isEmpty) then
      some (sign * ((digitsToNat intPart : Rat) +
        (digitsToNat frac : Rat) / ((10 : Rat) ^ frac.length)))
    else none
  | _ => none

/-- `amount.replace('$', '').replace(',', '').strip()` from
`_extract_amount_usd`. -/
def cleanAmountString (s : String) : String :=
  ((s.replace "$" "").replace "," "").trim

/-- A transaction record (`transaction_data` dict).  `none` in a field means
the key is absent.  Date-valued fields hold the parse result of the ISO
string (see the header comment). -/
structure TxnRecord where
  transaction_id : Option String
  customer_id : Option String
  card_id : Option String
  transaction_date : Option (Option Int)
  date : Option (Option Int)
  merchant : Option String
  amount_usd : Option PyValue
  amount : Option PyValue
  transaction_amount : Option PyValue
  value : Option PyValue
deriving DecidableEq

/-- Outcome of one iteration of the field loop in `_extract_amount_usd`:
skip to the next field, return an amount, or raise (string that `float`
rejects). -/
inductive FieldTry where
  | skip
  | ret (q : Rat)
  | exc
deriving DecidableEq

/-- One iteration of `_extract_amount_usd`'s loop body for a single field. -/
def tryAmountField : Option PyValue → FieldTry
  | none => .skip
  | some (.pstr s) =>
    match parseFloat? (cleanAmountString s) with
    | some q => .ret q
    | none => .exc
  | some (.pnum q) => .ret q
  | some .pother => .skip

/-- The loop of `_extract_amount_usd` over the prioritised field list; the
surrounding `try` turns a raised `ValueError` into the 999999.0 sentinel,
which is also the fall-through value when no field matches. -/
def extractAmountLoop : List (Option PyValue) → Rat
  | [] => 999999
  | f :: fs =>
    match tryAmountField f with
    | .ret q => q
    | .exc => 999999
    | .skip => extractAmountLoop fs

/-- `_extract_amount_usd`: try `amount_usd`, `amount`, `transaction_amount`,
`value` in that order. -/
def extractAmountUsd (t : TxnRecord) : Rat :=
  extractAmountLoop [t.amount_usd, t.amount, t.transaction_amount, t.value]

/-- `transaction_data.get('transaction_date', transaction_data.get('date', ''))`:
the `transaction_date` field if the key is present, else the `date` field,
else the empty string (which never parses). -/
def effectiveDate (t : TxnRecord) : Option Int :=
  match t.transaction_date with
  | some d => d
  | none =>
    match t.date with
    | some d => d
    | none => none

/-- `_calculate_transaction_age_days`: `(now - txn_date).days` for a
parseable date, and 0 (fail toward "recent") when parsing raises. -/
def calculateAgeDays (now : Int) (d : Option Int) : Int :=
  match d with
  | some dd => now - dd
  | none => 0

def TIME_BARRED_DAYS : Int := 600

def AUTO_RESOLVE_AMOUNT_USD : Rat := 100

def STATUS_REJECTED_TIME_BARRED : String := "REJECTED_TIME_BARRED"

def STATUS_RESOLVED_CUSTOMER : String := "RESOLVED_CUSTOMER"

def STATUS_FORWARDED_TO_ACQUIRER : String := "FORWARDED_TO_ACQUIRER"

def CREDIT_TYPE_PERMANENT : String := "PERMANENT"

def CREDIT_TYPE_TEMPORARY : String := "TEMPORARY"

/-- The tuple returned by `_determine_case_status`. -/
structure Decision where
  status : String
  reason : String
  credit_type : Option String
  credit_amount : Option Rat
deriving DecidableEq

/-- `_determine_case_status`: amount extraction, age computation, then the
three ordered business rules. -/
def determineCaseStatus (now : Int) (t : TxnRecord) : Decision :=
  let amount_usd := extractAmountUsd t
  let age_days := calculateAgeDays now (effectiveDate t)
  if age_days > TIME_BARRED_DAYS then
    ⟨STATUS_REJECTED_TIME_BARRED,
      "Transaction is " ++ toString age_days ++
        (" days old, exceeding the " ++ toString TIME_BARRED_DAYS ++
          " day limit"),
      none, none⟩
  else if age_days ≤ TIME_BARRED_DAYS ∧ amount_usd ≤ AUTO_RESOLVE_AMOUNT_USD then
    ⟨STATUS_RESOLVED_CUSTOMER,
      "Small amount dispute ($" ++ toString amount_usd ++
        ") resolved in customer\x27s favor with permanent credit",
      some CREDIT_TYPE_PERMANENT, some amount_usd⟩
  else
    ⟨STATUS_FORWARDED_TO_ACQUIRER,
      "Amount $" ++ toString amount_usd ++
        " forwarded to acquirer for investigation with temporary credit issued",
      some CREDIT_TYPE_TEMPORARY, some amount_usd⟩

/-- A persisted dispute case (an item of the case table), with the fields
`process_dispute` writes via `DisputeCaseCreationTool._run`.  Field order:
`case_id`, `customer_id`, `card_id`, `transaction_id`, `transaction_date`,
`transaction_amount`, `merchant`, `dispute_status`, `decision_reason`,
`auto_decided`, `requires_manual_review`, `credit_type`, `credit_amount`,
`credit_issued`, `created_at`, `updated_at`. -/
structure Case where
  case_id : String
  customer_id : Option String
  card_id : Option String
  transaction_id : Option String
  transaction_date : Option (Option Int)
  transaction_amount : Rat
  merchant : String
  dispute_status : String
  decision_reason : String
  auto_decided : Bool
  requires_manual_review : Bool
  credit_type : Option String
  credit_amount : Option Rat
  credit_issued : Bool
  created_at : String
  updated_at : String
deriving DecidableEq

/-- The case table, most-recent-first (`create_case` prepends, and the
descending `TransactionIndex` query then returns matches in list order). -/
abbrev CaseDB := List Case

/-- `get_case_by_transaction`: descending query on the transaction GSI,
returning `items[0]` — the head of the most-recent-first matching list.
`readOk = false` models the store query raising; the handlers catch the
error and return `None`. -/
def getCaseByTransaction (readOk : Bool) (db : CaseDB) (tid : String) :
    Option Case :=
  if readOk then
    (db.filter (fun c => c.transaction_id == some tid)).head?
  else
    none

/-- The closed-status list from `get_open_case_for_transaction`. -/
def closedStatuses : List String :=
  ["RESOLVED_CUSTOMER", "RESOLVED_ACQUIRER", "CLOSED", "REJECTED_TIME_BARRED"]

/-- The open-check of `get_open_case_for_transaction`: keep the case only
if its `dispute_status` is not in the closed set. -/
def openFilter (c : Case) : Option Case :=
  if c.dispute_status ∈ closedStatuses then none else some c

/-- `get_open_case_for_transaction`: the case from `get_case_by_transaction`
if its `dispute_status` is not in the closed set, absence otherwise (also
when `get_case_by_transaction` found nothing). -/
def getOpenCaseForTransaction (readOk : Bool) (db : CaseDB) (tid : String) :
    Option Case :=
  (getCaseByTransaction readOk db tid).bind openFilter

/-- `transaction_data.get('transaction_id', 'unknown')` from
`process_dispute`. -/
def lookupTransactionId (t : TxnRecord) : String :=
  t.transaction_id.getD "unknown"

/-- `transaction_data.get("transaction_date", transaction_data.get("date"))`
as stored into `case_data` (line 289): the outer `none` means both keys are
absent. -/
def caseDate (t : TxnRecord) : Option (Option Int) :=
  match t.transaction_date with
  | some d => some d
  | none => t.date

/-- The `case_data` dict assembled by `process_dispute` (lines 285-299)
together with the `case_id`/`created_at`/`updated_at` fields that
`DisputeCaseCreationTool._run` adds before persisting. -/
def buildCase (now : Int) (t : TxnRecord) (freshId createdAt : String) :
    Case :=
  let d := determineCaseStatus now t
  ⟨freshId,                                   -- case_id
   t.customer_id, t.card_id, t.transaction_id,
   caseDate t,
   extractAmountUsd t,                        -- transaction_amount
   t.merchant.getD "Unknown",
   d.status, d.reason,
   true,                                      -- auto_decided
   d.status == STATUS_FORWARDED_TO_ACQUIRER,  -- requires_manual_review
   d.credit_type, d.credit_amount,
   d.credit_type.isSome,                      -- credit_issued
   createdAt, createdAt⟩

/-- The dict `process_dispute` returns.  Each field is a key of one of the
three result dicts; `none` means the key is absent from that dict (the
existing-case dict has no credit fields, the persistence-failure dict has
only `case_id`, `dispute_status` and `decision_reason`).  Field order:
`case_id`, `customer_id`, `card_id`, `transaction_id`, `dispute_status`,
`decision_reason`, `created_at`, `updated_at`, `auto_decided`,
`requires_manual_review`, `credit_type`, `credit_amount`, `credit_issued`,
`existing_case`, `message`. -/
structure DisputeResult where
  case_id : Option String
  customer_id : Option String
  card_id : Option String
  transaction_id : Option String
  dispute_status : Option String
  decision_reason : Option String
  created_at : Option String
  updated_at : Option String
  auto_decided : Option Bool
  requires_manual_review : Option Bool
  credit_type : Option String
  credit_amount : Option Rat
  credit_issued : Option Bool
  existing_case : Option Bool
  message : Option String
deriving DecidableEq

/-- `process_dispute`: open-case check, decision, persist, with the three
result shapes of the source.  `readOk` models whether the store read inside
the open-case check succeeds; `persistOk` whether `create_case`'s
`put_item` succeeds; `freshId` is the generated `uuid4` and `createdAt` the
`utcnow().isoformat()` timestamp. -/
def processDispute (now : Int) (readOk persistOk : Bool)
    (freshId createdAt : String) (db : CaseDB) (t : TxnRecord) :
    DisputeResult × CaseDB :=
  match getOpenCaseForTransaction readOk db (lookupTransactionId t) with
  | some c =>
    (⟨some c.case_id, c.customer_id, c.card_id, c.transaction_id,
      some c.dispute_status, some c.decision_reason,
      some c.created_at, some c.updated_at,
      some c.auto_decided, some c.requires_manual_review,
      none, none, none,
      some true,
      some "An open dispute case already exists for this transaction"⟩,
     db)
  | none =>
    let d := determineCaseStatus now t
    let newCase := buildCase now t freshId createdAt
    if persistOk then
      (⟨some freshId, t.customer_id, t.card_id, t.transaction_id,
        some d.status, some d.reason,
        some createdAt, some createdAt,
        some true,
        some (d.status == STATUS_FORWARDED_TO_ACQUIRER),
        d.credit_type, d.credit_amount,
        some d.credit_type.isSome,
        some false,
        none⟩,
       newCase :: db)
    else
      (⟨none, none, none, none,
        some "ERROR",
        some "Failed to create dispute case: Failed to create case in database",
        none, none, none, none, none, none, none, none, none⟩,
       db)

/-- Number of open cases a table holds for a transaction id. -/
def countOpenCasesFor (db : CaseDB) (tid : String) : Nat :=
  (db.filter (fun c =>
    decide (c.transaction_id = some tid ∧
      c.dispute_status ∉ closedStatuses))).length

/-- Outcome of one attempt of a wrapped store operation: the call returns,
raises a `botocore` `ClientError` with an error code, or raises some other
exception. -/
inductive CallOutcome where
  | ok
  | clientError (code : String)
  | otherError
deriving DecidableEq

/-- The throttling error codes recognised by `async_retry`. -/
def throttlingCodes : List String :=
  ["ProvisionedThroughputExceededException", "ThrottlingException"]

/-- The result of running `async_retry`'s loop: the final outcome (`none`
models the loop falling through without a `return`, unreachable for a
positive attempt budget), the number of calls made to the wrapped function,
and the list of sleep durations performed, in order. -/
structure RetryTrace where
  result : Option CallOutcome
  calls : Nat
  sleeps : List Rat
deriving DecidableEq

/-- The `for attempt in range(max_attempts)` loop of `async_retry.wrapper`.
`attempt` is the Python loop index and `fuel` the number of iterations left
(so `fuel = 1` is the last attempt, where both `except` arms re-raise).
`outcomes i` is the behaviour of the wrapped call on its `i`-th invocation. -/
def asyncRetryGo (delay : Rat) (outcomes : Nat → CallOutcome) :
    Nat → Nat → RetryTrace
  | _, 0 => ⟨none, 0, []⟩
  | attempt, fuel + 1 =>
    match outcomes attempt with
    | .ok => ⟨some .ok, 1, []⟩
    | .clientError code =>
      if fuel = 0 then
        ⟨some (.clientError code), 1, []⟩
      else if code ∈ throttlingCodes then
        let w := delay * 2 ^ attempt
        let rest := asyncRetryGo delay outcomes (attempt + 1) fuel
        ⟨rest.result, rest.calls + 1, w :: rest.sleeps⟩
      else
        ⟨some (.clientError code), 1, []⟩
    | .otherError =>
      if fuel = 0 then
        ⟨some .otherError, 1, []⟩
      else
        let rest := asyncRetryGo delay outcomes (attempt + 1) fuel
        ⟨rest.result, rest.calls + 1, delay :: rest.sleeps⟩

/-- `async_retry(max_attempts, delay)` applied to a wrapped operation whose
successive attempts behave as `outcomes`. -/
def asyncRetry (maxAttempts : Nat) (delay : Rat)
    (outcomes : Nat → CallOutcome) : RetryTrace :=
  asyncRetryGo delay outcomes 0 maxAttempts

/-- A call issued to the underlying store by the query tool, with the
arguments the tool passes through.  Payload lists carry the attribute names
of the corresponding dict arguments (values are irrelevant to the verified
properties). -/
inductive StoreCall where
  | query (table : String) (keys : List String)
      (filterKeys : Option (List String)) (index : Option String)
      (projection : Option (List String)) (limit : Option Nat)
  | getItem (table : String) (key : List String)
  | scan (table : String) (filterKeys : Option (List String))
      (projection : Option (List String)) (limit : Option Nat)
  | putItem (table : String) (item : List String)
  | updateItem (table : String) (key : List String) (updates : List String)
deriving DecidableEq

/-- The dict returned by the query tool: `success`, and the `error` message
when present. -/
structure ToolResult where
  success : Bool
  error : Option String
deriving DecidableEq

/-- The table allow-list of `DynamoQueryCreatorTool._run`. -/
def validTables : List String :=
  ["ptr_dispute_resol_customer_cards_and_transactions",
   "ptr_dispute_resol_case_db"]

/-- Python truthiness of an optional dict argument: `None` and the empty
dict are both falsy. -/
def truthy : Option (List String) → Option (List String)
  | none => none
  | some [] => none
  | some ks => some ks

/-- Python truthiness of the optional `limit` argument (`0` is falsy). -/
def truthyNat : Option Nat → Option Nat
  | none => none
  | some 0 => none
  | some n => some n

/-- `_execute_query`: requires a key condition, then issues one store query
carrying the key condition, filter, index name, projection and limit as
given — the index name is forwarded unchecked. -/
def executeQuery (table : String) (key_condition : Option (List String))
    (filter_expression : Option (List String)) (index_name : Option String)
    (attributes_to_get : Option (List String)) (limit : Option Nat) :
    ToolResult × List StoreCall :=
  match truthy key_condition with
  | none => (⟨false, some "key_condition required for query"⟩, [])
  | some ks =>
    (⟨true, none⟩,
     [.query table ks (truthy filter_expression) index_name
        (truthy attributes_to_get) (truthyNat limit)])

/-- `_execute_get_item`. -/
def executeGetItem (table : String) (key_condition : Option (List String)) :
    ToolResult × List StoreCall :=
  match truthy key_condition with
  | none => (⟨false, some "key_condition required for get_item"⟩, [])
  | some ks => (⟨true, none⟩, [.getItem table ks])

/-- `_execute_scan`. -/
def executeScan (table : String) (filter_expression : Option (List String))
    (attributes_to_get : Option (List String)) (limit : Option Nat) :
    ToolResult × List StoreCall :=
  (⟨true, none⟩,
   [.scan table (truthy filter_expression) (truthy attributes_to_get)
      (truthyNat limit)])

/-- `_execute_put_item`. -/
def executePutItem (table : String) (item_data : Option (List String)) :
    ToolResult × List StoreCall :=
  match truthy item_data with
  | none => (⟨false, some "item_data required for put_item"⟩, [])
  | some it => (⟨true, none⟩, [.putItem table it])

/-- `_execute_update_item`. -/
def executeUpdateItem (table : String) (key_condition : Option (List String))
    (update_expression : Option (List String)) :
    ToolResult × List StoreCall :=
  match truthy key_condition with
  | none => (⟨false, some "key_condition required for update_item"⟩, [])
  | some ks =>
    match truthy update_expression with
    | none => (⟨false, some "update_expression required for update_item"⟩, [])
    | some ups => (⟨true, none⟩, [.updateItem table ks ups])

/-- `DynamoQueryCreatorTool._run`: validate the table name against the
allow-list, then dispatch on the operation.  The returned list is the trace
of store calls issued, in order; an empty trace means the tool failed (or
finished) before any store call. -/
def queryToolRun (table_name operation : String)
    (key_condition : Option (List String))
    (filter_expression : Option (List String))
    (index_name : Option String)
    (attributes_to_get : Option (List String))
    (limit : Option Nat)
    (item_data : Option (List String))
    (update_expression : Option (List String)) :
    ToolResult × List StoreCall :=
  if table_name ∈ validTables then
    if operation = "query" then
      executeQuery table_name key_condition filter_expression index_name
        attributes_to_get limit
    else if operation = "get_item" then
      executeGetItem table_name key_condition
    else if operation = "scan" then
      executeScan table_name filter_expression attributes_to_get limit
    else if operation = "put_item" then
      executePutItem table_name item_data
    else if operation = "update_item" then
      executeUpdateItem table_name key_condition update_expression
    else
      (⟨false, some ("Unsupported operation: " ++ operation)⟩, [])
  else
    (⟨false,
      some "Invalid table name. Must be one of the allowed tables"⟩, [])

/-! ### Concrete example records used by witnesses and counterexamples -/

/-- A recent transaction of 200 USD (date day 0, evaluated at day 10). -/
def txLarge : TxnRecord :=
  ⟨some "TXN-1", some "CUST-1", some "CARD-1", some (some 0), none,
   some "Shop", some (.pnum 200), none, none, none⟩

/-- A transaction of 50 USD. -/
def txSmall : TxnRecord :=
  ⟨some "TXN-1", some "CUST-1", some "CARD-1", some (some 0), none,
   some "Shop", some (.pnum 50), none, none, none⟩

/-- A transaction with no amount field at all. -/
def txNoAmount : TxnRecord :=
  ⟨some "TXN-2", some "CUST-1", none, some (some 0), none,
   none, none, none, none, none⟩

/-- A transaction record whose `transaction_id` key is absent. -/
def txNoId : TxnRecord :=
  ⟨none, some "CUST-1", none, some (some 0), none,
   none, some (.pnum 200), none, none, none⟩

/-! ### C1 -/

/-- C1: `_determine_case_status` applies the three rules in order with first
match winning: age over 600 days is rejected as time-barred with the age in
the reason and no credit; otherwise an amount of at most 100.00 resolves to
the customer with a PERMANENT credit of that amount; otherwise the case is
forwarded to the acquirer with a TEMPORARY credit of that amount.  Amount
exactly 100.00 resolves to the customer and age exactly 600 does not
time-bar. -/
theorem determineCaseStatus_rules (now : Int) (t : TxnRecord) :
    (calculateAgeDays now (effectiveDate t) > 600 →
      (determineCaseStatus now t).status = "REJECTED_TIME_BARRED" ∧
      (∃ a b, (determineCaseStatus now t).reason =
        a ++ toString (calculateAgeDays now (effectiveDate t)) ++ b) ∧
      (determineCaseStatus now t).credit_type = none ∧
      (determineCaseStatus now t).credit_amount = none) ∧
    (calculateAgeDays now (effectiveDate t) ≤ 600 →
      extractAmountUsd t ≤ 100 →
      (determineCaseStatus now t).status = "RESOLVED_CUSTOMER" ∧
      (determineCaseStatus now t).credit_type = some "PERMANENT" ∧
      (determineCaseStatus now t).credit_amount = some (extractAmountUsd t)) ∧
    (calculateAgeDays now (effectiveDate t) ≤ 600 →
      extractAmountUsd t > 100 →
      (determineCaseStatus now t).status = "FORWARDED_TO_ACQUIRER" ∧
      (determineCaseStatus now t).credit_type = some "TEMPORARY" ∧
      (determineCaseStatus now t).credit_amount = some (extractAmountUsd t)) ∧
    (calculateAgeDays now (effectiveDate t) ≤ 600 →
      extractAmountUsd t = 100 →
      (determineCaseStatus now t).status = "RESOLVED_CUSTOMER") ∧
    (calculateAgeDays now (effectiveDate t) = 600 →
      (determineCaseStatus now t).status ≠ "REJECTED_TIME_BARRED") := by
  have hTB : TIME_BARRED_DAYS = 600 := rfl
  have hAR : AUTO_RESOLVE_AMOUNT_USD = 100 := rfl
  unfold determineCaseStatus
  dsimp only
  split_ifs with h1 h2
  · rw [hTB] at h1
    refine ⟨fun _ => ⟨rfl, ⟨"Transaction is ",
        " days old, exceeding the " ++ toString TIME_BARRED_DAYS ++
          " day limit", rfl⟩, rfl, rfl⟩,
      fun hle _ => absurd h1 (not_lt.mpr hle),
      fun hle _ => absurd h1 (not_lt.mpr hle),
      fun hle _ => absurd h1 (not_lt.mpr hle),
      fun heq => absurd h1 (by omega)⟩
  · rw [hTB] at h1
    rw [hTB, hAR] at h2
    refine ⟨fun hgt => absurd hgt h1,
      fun _ _ => ⟨rfl, rfl, rfl⟩,
      fun _ hgt => absurd h2.2 (not_le.mpr hgt),
      fun _ _ => rfl,
      fun _ => (by decide : ("RESOLVED_CUSTOMER" : String) ≠ "REJECTED_TIME_BARRED")⟩
  · rw [hTB] at h1
    rw [hTB, hAR] at h2
    refine ⟨fun hgt => absurd hgt h1,
      fun hle hsm => absurd ⟨hle, hsm⟩ h2,
      fun _ _ => ⟨rfl, rfl, rfl⟩,
      fun hle hsm => absurd ⟨hle, le_of_eq hsm⟩ h2,
      fun _ => (by decide : ("FORWARDED_TO_ACQUIRER" : String) ≠ "REJECTED_TIME_BARRED")⟩

/-- Witness for C1 at concrete inputs: a 700-day-old 50 USD transaction is
time-barred, a 10-day-old 50 USD transaction resolves to the customer, and a
10-day-old 200 USD transaction is forwarded. -/
theorem determineCaseStatus_rules_witness :
    (determineCaseStatus 700 txSmall).status = "REJECTED_TIME_BARRED" ∧
    (determineCaseStatus 10 txSmall).status = "RESOLVED_CUSTOMER" ∧
    (determineCaseStatus 10 txLarge).status = "FORWARDED_TO_ACQUIRER" :=
  ⟨((determineCaseStatus_rules 700 txSmall).1 (by decide)).1,
   ((determineCaseStatus_rules 10 txSmall).2.1 (by decide) (by decide)).1,
   ((determineCaseStatus_rules 10 txLarge).2.2.1 (by decide) (by decide)).1⟩

/-- A concrete open case for transaction `TXN-1`. -/
def caseOpen : Case :=
  ⟨"CASE-9", some "CUST-1", some "CARD-1", some "TXN-1", some (some 0),
   200, "Shop", "FORWARDED_TO_ACQUIRER", "forwarded", true, true,
   some "TEMPORARY", some 200, true, "TS0", "TS0"⟩

/-! ### C3 -/

/-- C3: `get_open_case_for_transaction` returns the most recent case for the
transaction id — the head of the descending (most-recent-first) transaction
GSI query, i.e. of the filtered table list — exactly when the store read
succeeds, that case exists, and its `dispute_status` is outside the closed
set; in every other situation it returns `none`. -/
theorem getOpenCaseForTransaction_spec (readOk : Bool) (db : CaseDB)
    (tid : String) (c : Case) :
    getOpenCaseForTransaction readOk db tid = some c ↔
      (readOk = true ∧
       (db.filter (fun x => x.transaction_id == some tid)).head? = some c ∧
       c.dispute_status ∉ closedStatuses) := by
  unfold getOpenCaseForTransaction getCaseByTransaction
  cases readOk with
  | false => simp
  | true =>
    rw [if_pos rfl]
    cases h : (db.filter fun x => x.transaction_id == some tid).head? with
    | none => simp
    | some c' =>
      rw [Option.some_bind]
      unfold openFilter
      by_cases hc : c'.dispute_status ∈ closedStatuses
      · rw [if_pos hc]
        constructor
        · intro heq
          exact absurd heq (by simp)
        · rintro ⟨-, hh, hopen⟩
          obtain rfl : c' = c := Option.some.inj hh
          exact absurd hc hopen
      · rw [if_neg hc]
        constructor
        · intro heq
          obtain rfl : c' = c := Option.some.inj heq
          exact ⟨rfl, rfl, hc⟩
        · rintro ⟨-, hh, -⟩
          obtain rfl : c' = c := Option.some.inj hh
          rfl

/-- Witness for C3: on a one-case table holding an open `FORWARDED`
case for `TXN-1`, the open-case check returns that case. -/
theorem getOpenCaseForTransaction_spec_witness :
    getOpenCaseForTransaction true [caseOpen] "TXN-1" = some caseOpen :=
  (getOpenCaseForTransaction_spec true [caseOpen] "TXN-1" caseOpen).mpr
    ⟨rfl, by decide, by decide⟩

/-! ### C2 -/

/-- C2: when a first `process_dispute` call creates a case (no open case
existed, the write succeeds) and the decided status is
`FORWARDED_TO_ACQUIRER`, the first call returns `existing_case = false`,
and a second sequential call with the same `transaction_id` creates no new
case (the table is unchanged), returns the same `case_id`, and flags
`existing_case = true`. -/
theorem processDispute_idempotent_on_open_case
    (now now2 : Int) (persist2 : Bool) (id1 id2 ca1 ca2 : String)
    (db : CaseDB) (t : TxnRecord) (tid : String)
    (htid : t.transaction_id = some tid)
    (hopen : getOpenCaseForTransaction true db tid = none)
    (hfwd : (determineCaseStatus now t).status = "FORWARDED_TO_ACQUIRER") :
    (processDispute now true true id1 ca1 db t).1.existing_case = some false ∧
    (processDispute now true true id1 ca1 db t).1.case_id = some id1 ∧
    (processDispute now2 true persist2 id2 ca2
        (processDispute now true true id1 ca1 db t).2 t).1.case_id =
      (processDispute now true true id1 ca1 db t).1.case_id ∧
    (processDispute now2 true persist2 id2 ca2
        (processDispute now true true id1 ca1 db t).2 t).1.existing_case =
      some true ∧
    (processDispute now2 true persist2 id2 ca2
        (processDispute now true true id1 ca1 db t).2 t).2 =
      (processDispute now true true id1 ca1 db t).2 := by
  have hl : lookupTransactionId t = tid := by
    simp [lookupTransactionId, htid]
  have h1 : processDispute now true true id1 ca1 db t =
      (⟨some id1, t.customer_id, t.card_id, t.transaction_id,
        some (determineCaseStatus now t).status,
        some (determineCaseStatus now t).reason,
        some ca1, some ca1, some true,
        some ((determineCaseStatus now t).status ==
          STATUS_FORWARDED_TO_ACQUIRER),
        (determineCaseStatus now t).credit_type,
        (determineCaseStatus now t).credit_amount,
        some (determineCaseStatus now t).credit_type.isSome,
        some false, none⟩,
       buildCase now t id1 ca1 :: db) := by
    unfold processDispute
    rw [hl, hopen]
    rfl
  have hb : (buildCase now t id1 ca1).transaction_id = some tid := by
    simp [buildCase, htid]
  have hs : (buildCase now t id1 ca1).dispute_status =
      "FORWARDED_TO_ACQUIRER" := by
    simp [buildCase, hfwd]
  have h2 : getOpenCaseForTransaction true (buildCase now t id1 ca1 :: db)
      tid = some (buildCase now t id1 ca1) := by
    unfold getOpenCaseForTransaction getCaseByTransaction
    rw [if_pos rfl, List.filter_cons_of_pos (by simp [hb])]
    rw [List.head?_cons, Option.some_bind]
    unfold openFilter
    rw [hs, if_neg (by decide)]
  have h3 : processDispute now2 true persist2 id2 ca2
      (buildCase now t id1 ca1 :: db) t =
      (⟨some (buildCase now t id1 ca1).case_id,
        (buildCase now t id1 ca1).customer_id,
        (buildCase now t id1 ca1).card_id,
        (buildCase now t id1 ca1).transaction_id,
        some (buildCase now t id1 ca1).dispute_status,
        some (buildCase now t id1 ca1).decision_reason,
        some (buildCase now t id1 ca1).created_at,
        some (buildCase now t id1 ca1).updated_at,
        some (buildCase now t id1 ca1).auto_decided,
        some (buildCase now t id1 ca1).requires_manual_review,
        none, none, none, some true,
        some "An open dispute case already exists for this transaction"⟩,
       buildCase now t id1 ca1 :: db) := by
    unfold processDispute
    rw [hl, h2]
  rw [h1]
  rw [h3]
  refine ⟨rfl, rfl, ?_, rfl, rfl⟩
  simp [buildCase]

/-- Witness for C2: two sequential calls on an empty table for a recent
200 USD transaction; the second returns `existing_case = true` and the same
`case_id`. -/
theorem processDispute_idempotent_on_open_case_witness :
    (processDispute 10 true true "CASE-A" "TS1" [] txLarge).1.existing_case =
      some false ∧
    (processDispute 20 true true "CASE-B" "TS2"
        (processDispute 10 true true "CASE-A" "TS1" [] txLarge).2
        txLarge).1.existing_case = some true ∧
    (processDispute 20 true true "CASE-B" "TS2"
        (processDispute 10 true true "CASE-A" "TS1" [] txLarge).2
        txLarge).1.case_id =
      (processDispute 10 true true "CASE-A" "TS1" [] txLarge).1.case_id :=
  ⟨(processDispute_idempotent_on_open_case 10 20 true "CASE-A" "CASE-B"
      "TS1" "TS2" [] txLarge "TXN-1" rfl rfl (by decide)).1,
   (processDispute_idempotent_on_open_case 10 20 true "CASE-A" "CASE-B"
      "TS1" "TS2" [] txLarge "TXN-1" rfl rfl (by decide)).2.2.2.1,
   (processDispute_idempotent_on_open_case 10 20 true "CASE-A" "CASE-B"
      "TS1" "TS2" [] txLarge "TXN-1" rfl rfl (by decide)).2.2.1⟩

/-! ### C4 -/

/-- C4: every case that `process_dispute` persists (any case of the
post-state table that was not already in the pre-state table) satisfies
both invariants: `credit_issued` is true exactly when `credit_type` is not
null, and `requires_manual_review` is true exactly when `dispute_status`
is `FORWARDED_TO_ACQUIRER`. -/
theorem processDispute_persisted_case_invariants
    (now : Int) (readOk persistOk : Bool) (freshId createdAt : String)
    (db : CaseDB) (t : TxnRecord) (c : Case)
    (hc : c ∈ (processDispute now readOk persistOk freshId createdAt db t).2) :
    c ∈ db ∨
      (c.credit_issued = c.credit_type.isSome ∧
       c.requires_manual_review =
         (c.dispute_status == STATUS_FORWARDED_TO_ACQUIRER)) := by
  unfold processDispute at hc
  cases hg : getOpenCaseForTransaction readOk db (lookupTransactionId t) with
  | some c0 =>
    rw [hg] at hc
    exact Or.inl hc
  | none =>
    rw [hg] at hc
    cases persistOk with
    | false => exact Or.inl hc
    | true =>
      have hc' : c ∈ buildCase now t freshId createdAt :: db := hc
      rcases List.mem_cons.mp hc' with h | h
      · subst h
        exact Or.inr ⟨rfl, rfl⟩
      · exact Or.inl h

/-- Witness for C4 on a concrete run: the case persisted for a recent
200 USD transaction satisfies both invariants. -/
theorem processDispute_persisted_case_invariants_witness :
    buildCase 10 txLarge "CASE-A" "TS1" ∈
      (processDispute 10 true true "CASE-A" "TS1" [] txLarge).2 ∧
    (buildCase 10 txLarge "CASE-A" "TS1" ∈ ([] : CaseDB) ∨
      ((buildCase 10 txLarge "CASE-A" "TS1").credit_issued =
        (buildCase 10 txLarge "CASE-A" "TS1").credit_type.isSome ∧
       (buildCase 10 txLarge "CASE-A" "TS1").requires_manual_review =
        ((buildCase 10 txLarge "CASE-A" "TS1").dispute_status ==
          STATUS_FORWARDED_TO_ACQUIRER))) :=
  ⟨by decide,
   processDispute_persisted_case_invariants 10 true true "CASE-A" "TS1" []
     txLarge (buildCase 10 txLarge "CASE-A" "TS1") (by decide)⟩

/-! ### C10 -/

/-- C10: a failed store read is swallowed — `get_case_by_transaction` and
`get_open_case_for_transaction` return `None` when the read raises — so
`process_dispute` treats the failure as "no open case" and persists a new
case; on a transaction that already has an open case whose fresh decision
is again `FORWARDED_TO_ACQUIRER`, the table ends up with at least two open
cases for that transaction, without any concurrency. -/
theorem readFailure_creates_duplicate_open_case
    (now : Int) (freshId createdAt : String) (db : CaseDB) (t : TxnRecord)
    (tid : String) (c : Case)
    (htid : t.transaction_id = some tid)
    (hc : c ∈ db) (hctid : c.transaction_id = some tid)
    (hcopen : c.dispute_status ∉ closedStatuses)
    (hfwd : (determineCaseStatus now t).status = "FORWARDED_TO_ACQUIRER") :
    getCaseByTransaction false db tid = none ∧
    getOpenCaseForTransaction false db tid = none ∧
    (processDispute now false true freshId createdAt db t).1.existing_case =
      some false ∧
    (processDispute now false true freshId createdAt db t).2 =
      buildCase now t freshId createdAt :: db ∧
    2 ≤ countOpenCasesFor
        (processDispute now false true freshId createdAt db t).2 tid := by
  have hl : lookupTransactionId t = tid := by
    simp [lookupTransactionId, htid]
  have hrun : processDispute now false true freshId createdAt db t =
      (⟨some freshId, t.customer_id, t.card_id, t.transaction_id,
        some (determineCaseStatus now t).status,
        some (determineCaseStatus now t).reason,
        some createdAt, some createdAt, some true,
        some ((determineCaseStatus now t).status ==
          STATUS_FORWARDED_TO_ACQUIRER),
        (determineCaseStatus now t).credit_type,
        (determineCaseStatus now t).credit_amount,
        some (determineCaseStatus now t).credit_type.isSome,
        some false, none⟩,
       buildCase now t freshId createdAt :: db) := by
    unfold processDispute
    rw [hl]
    rfl
  have hpnew : decide ((buildCase now t freshId createdAt).transaction_id =
      some tid ∧
      (buildCase now t freshId createdAt).dispute_status ∉ closedStatuses) =
        true := by
    rw [decide_eq_true_eq]
    refine ⟨by simp [buildCase, htid], ?_⟩
    have : (buildCase now t freshId createdAt).dispute_status =
        "FORWARDED_TO_ACQUIRER" := by simp [buildCase, hfwd]
    rw [this]
    decide
  have hmem : c ∈ db.filter (fun x =>
      decide (x.transaction_id = some tid ∧
        x.dispute_status ∉ closedStatuses)) :=
    List.mem_filter.mpr ⟨hc, by
      rw [decide_eq_true_eq]
      exact ⟨hctid, hcopen⟩⟩
  refine ⟨rfl, rfl, by rw [hrun], by rw [hrun], ?_⟩
  rw [hrun]
  unfold countOpenCasesFor
  dsimp only
  simp only [List.filter_cons]
  rw [hpnew]
  rw [if_pos rfl, List.length_cons]
  have hpos : 0 < (db.filter (fun x =>
      decide (x.transaction_id = some tid ∧
        x.dispute_status ∉ closedStatuses))).length :=
    List.length_pos.mpr (List.ne_nil_of_mem hmem)
  omega

/-- Witness for C10: table holding the open case `caseOpen` for `TXN-1`,
read failure during the open-case check of a second dispute of `TXN-1`:
a duplicate case is created and the table has two open cases. -/
theorem readFailure_creates_duplicate_open_case_witness :
    getOpenCaseForTransaction false [caseOpen] "TXN-1" = none ∧
    2 ≤ countOpenCasesFor
        (processDispute 10 false true "CASE-B" "TS2" [caseOpen] txLarge).2
        "TXN-1" :=
  ⟨(readFailure_creates_duplicate_open_case 10 "CASE-B" "TS2" [caseOpen]
      txLarge "TXN-1" caseOpen rfl (by decide) rfl (by decide)
      (by decide)).2.1,
   (readFailure_creates_duplicate_open_case 10 "CASE-B" "TS2" [caseOpen]
      txLarge "TXN-1" caseOpen rfl (by decide) rfl (by decide)
      (by decide)).2.2.2.2⟩

/-! ### C5 -/

/-- Counterexample to C5 as stated: a transaction with no amount field
whose date is 700 days old extracts the 999999.0 sentinel, but its decision
is `REJECTED_TIME_BARRED`, not `FORWARDED_TO_ACQUIRER` — rule 1 fires
before the amount rules. -/
theorem missingAmount_time_barred_cex :
    (txNoAmount.amount_usd = none ∧ txNoAmount.amount = none ∧
     txNoAmount.transaction_amount = none ∧ txNoAmount.value = none) ∧
    extractAmountUsd txNoAmount = 999999 ∧
    (determineCaseStatus 700 txNoAmount).status = "REJECTED_TIME_BARRED" ∧
    (determineCaseStatus 700 txNoAmount).status ≠ "FORWARDED_TO_ACQUIRER" ∧
    (determineCaseStatus 700 txNoAmount).credit_type = none := by
  decide

/-- C5 (amended): with none of the four amount fields present, extraction
returns the 999999.0 sentinel and never errors, and — provided the
transaction is not time-barred (`age_days ≤ 600`) — the decision is
`FORWARDED_TO_ACQUIRER` with a TEMPORARY credit of 999999.0. -/
theorem missingAmount_failsafe (now : Int) (t : TxnRecord)
    (h1 : t.amount_usd = none) (h2 : t.amount = none)
    (h3 : t.transaction_amount = none) (h4 : t.value = none) :
    extractAmountUsd t = 999999 ∧
    (calculateAgeDays now (effectiveDate t) ≤ 600 →
      (determineCaseStatus now t).status = "FORWARDED_TO_ACQUIRER" ∧
      (determineCaseStatus now t).credit_type = some "TEMPORARY" ∧
      (determineCaseStatus now t).credit_amount = some 999999) := by
  have he : extractAmountUsd t = 999999 := by
    unfold extractAmountUsd
    rw [h1, h2, h3, h4]
    rfl
  refine ⟨he, fun hage => ?_⟩
  have hgt : ¬ (calculateAgeDays now (effectiveDate t) > TIME_BARRED_DAYS) := by
    rw [show TIME_BARRED_DAYS = 600 from rfl]
    omega
  have hno : ¬ (calculateAgeDays now (effectiveDate t) ≤ TIME_BARRED_DAYS ∧
      extractAmountUsd t ≤ AUTO_RESOLVE_AMOUNT_USD) := by
    rintro ⟨-, habs⟩
    rw [he] at habs
    norm_num [AUTO_RESOLVE_AMOUNT_USD] at habs
  unfold determineCaseStatus
  dsimp only
  rw [if_neg hgt, if_neg hno]
  exact ⟨rfl, rfl, by rw [he]⟩

/-- Witness for the amended C5: a 10-day-old transaction with no amount
field is forwarded to the acquirer with a TEMPORARY sentinel credit. -/
theorem missingAmount_failsafe_witness :
    extractAmountUsd txNoAmount = 999999 ∧
    (determineCaseStatus 10 txNoAmount).status = "FORWARDED_TO_ACQUIRER" ∧
    (determineCaseStatus 10 txNoAmount).credit_type = some "TEMPORARY" ∧
    (determineCaseStatus 10 txNoAmount).credit_amount = some 999999 :=
  ⟨(missingAmount_failsafe 10 txNoAmount rfl rfl rfl rfl).1,
   ((missingAmount_failsafe 10 txNoAmount rfl rfl rfl rfl).2 (by decide)).1,
   ((missingAmount_failsafe 10 txNoAmount rfl rfl rfl rfl).2 (by decide)).2.1,
   ((missingAmount_failsafe 10 txNoAmount rfl rfl rfl rfl).2 (by decide)).2.2⟩

/-! ### C6 -/

/-- Counterexample to C6 as stated: on a record without `transaction_id`,
`process_dispute` raises no validation error — it looks up the substitute
identifier `unknown` and proceeds to create a case (one case is persisted,
`existing_case = false`). -/
theorem processDispute_missing_id_cex :
    txNoId.transaction_id = none ∧
    lookupTransactionId txNoId = "unknown" ∧
    (processDispute 10 true true "CASE-U" "TS1" [] txNoId).1.existing_case =
      some false ∧
    (processDispute 10 true true "CASE-U" "TS1" [] txNoId).1.dispute_status =
      some "FORWARDED_TO_ACQUIRER" ∧
    (processDispute 10 true true "CASE-U" "TS1" [] txNoId).2.length = 1 := by
  decide

/-- C6 (amended): when `transaction_id` is absent, `process_dispute` does
not fail — it performs the open-case lookup under the substitute identifier
`unknown` and, when no open case exists under `unknown`, proceeds to create
and persist a case whose stored `transaction_id` is null. -/
theorem processDispute_missing_id_substitute
    (now : Int) (freshId createdAt : String) (db : CaseDB) (t : TxnRecord)
    (h : t.transaction_id = none)
    (hopen : getOpenCaseForTransaction true db "unknown" = none) :
    lookupTransactionId t = "unknown" ∧
    (processDispute now true true freshId createdAt db t).1.existing_case =
      some false ∧
    (processDispute now true true freshId createdAt db t).2 =
      buildCase now t freshId createdAt :: db ∧
    (buildCase now t freshId createdAt).transaction_id = none := by
  have hl : lookupTransactionId t = "unknown" := by
    simp [lookupTransactionId, h]
  have hrun : processDispute now true true freshId createdAt db t =
      (⟨some freshId, t.customer_id, t.card_id, t.transaction_id,
        some (determineCaseStatus now t).status,
        some (determineCaseStatus now t).reason,
        some createdAt, some createdAt, some true,
        some ((determineCaseStatus now t).status ==
          STATUS_FORWARDED_TO_ACQUIRER),
        (determineCaseStatus now t).credit_type,
        (determineCaseStatus now t).credit_amount,
        some (determineCaseStatus now t).credit_type.isSome,
        some false, none⟩,
       buildCase now t freshId createdAt :: db) := by
    unfold processDispute
    rw [hl, hopen]
    rfl
  exact ⟨hl, by rw [hrun], by rw [hrun], by simp [buildCase, h]⟩

/-- Witness for the amended C6 at a concrete id-less record on an empty
table. -/
theorem processDispute_missing_id_substitute_witness :
    lookupTransactionId txNoId = "unknown" ∧
    (processDispute 10 true true "CASE-U" "TS1" [] txNoId).2 =
      [buildCase 10 txNoId "CASE-U" "TS1"] :=
  ⟨(processDispute_missing_id_substitute 10 "CASE-U" "TS1" [] txNoId
      rfl rfl).1,
   (processDispute_missing_id_substitute 10 "CASE-U" "TS1" [] txNoId
      rfl rfl).2.2.1⟩

/-! ### C7 -/

/-- Counterexample to C7 as stated: for a recent 200 USD transaction whose
persistence fails, the decision that was computed is `FORWARDED_TO_ACQUIRER`
with a TEMPORARY credit of 200, yet the returned error result carries the
status `ERROR` with null `case_id`, `credit_type` and `credit_amount` — the
computed decision is not attached. -/
theorem processDispute_persist_failure_cex :
    (determineCaseStatus 10 txLarge).status = "FORWARDED_TO_ACQUIRER" ∧
    (determineCaseStatus 10 txLarge).credit_type = some "TEMPORARY" ∧
    (determineCaseStatus 10 txLarge).credit_amount = some 200 ∧
    (processDispute 10 true false "CASE-A" "TS1" [] txLarge).1.dispute_status =
      some "ERROR" ∧
    (processDispute 10 true false "CASE-A" "TS1" [] txLarge).1.dispute_status ≠
      some "FORWARDED_TO_ACQUIRER" ∧
    (processDispute 10 true false "CASE-A" "TS1" [] txLarge).1.credit_type =
      none ∧
    (processDispute 10 true false "CASE-A" "TS1" [] txLarge).1.credit_amount =
      none ∧
    (processDispute 10 true false "CASE-A" "TS1" [] txLarge).1.case_id =
      none := by
  decide

/-- C7 (amended): when persistence of a newly decided dispute fails,
`process_dispute` returns an error result consisting only of a null
`case_id`, the status `ERROR` and a failure message in `decision_reason`;
the computed status, credit_type and credit_amount are not attached, and
the table is unchanged. -/
theorem processDispute_persist_failure_result
    (now : Int) (freshId createdAt : String) (db : CaseDB) (t : TxnRecord)
    (hopen : getOpenCaseForTransaction true db (lookupTransactionId t) =
      none) :
    processDispute now true false freshId createdAt db t =
      (⟨none, none, none, none, some "ERROR",
        some "Failed to create dispute case: Failed to create case in database",
        none, none, none, none, none, none, none, none, none⟩,
       db) := by
  unfold processDispute
  rw [hopen]
  rfl

/-- Witness for the amended C7 at a concrete failing write on an empty
table. -/
theorem processDispute_persist_failure_result_witness :
    processDispute 10 true false "CASE-A" "TS1" [] txLarge =
      (⟨none, none, none, none, some "ERROR",
        some "Failed to create dispute case: Failed to create case in database",
        none, none, none, none, none, none, none, none, none⟩,
       []) :=
  processDispute_persist_failure_result 10 "CASE-A" "TS1" [] txLarge rfl

/-! ### C8 -/

/-- Last-attempt step of the retry loop (`fuel = 1`): a `ClientError` is
re-raised before its code is inspected. -/
theorem asyncRetryGo_last_client (delay : Rat) (o : Nat → CallOutcome)
    (attempt : Nat) (code : String)
    (h : o attempt = CallOutcome.clientError code) :
    asyncRetryGo delay o attempt 1 =
      ⟨some (CallOutcome.clientError code), 1, []⟩ := by
  conv_lhs => unfold asyncRetryGo
  rw [h]
  rfl

/-- Last-attempt step of the retry loop: a non-`ClientError` exception is
re-raised. -/
theorem asyncRetryGo_last_other (delay : Rat) (o : Nat → CallOutcome)
    (attempt : Nat) (h : o attempt = CallOutcome.otherError) :
    asyncRetryGo delay o attempt 1 = ⟨some CallOutcome.otherError, 1, []⟩ := by
  conv_lhs => unfold asyncRetryGo
  rw [h]
  rfl

/-- A successful call returns immediately. -/
theorem asyncRetryGo_ok (delay : Rat) (o : Nat → CallOutcome)
    (attempt fuel : Nat) (h : o attempt = CallOutcome.ok) :
    asyncRetryGo delay o attempt (fuel + 1) =
      ⟨some CallOutcome.ok, 1, []⟩ := by
  conv_lhs => unfold asyncRetryGo
  rw [h]

/-- A non-throttling `ClientError` before the last attempt is re-raised
immediately: one call, no sleep. -/
theorem asyncRetryGo_client_nonthrottle (delay : Rat)
    (o : Nat → CallOutcome) (attempt fuel : Nat) (code : String)
    (h : o attempt = CallOutcome.clientError code) (hf : fuel ≠ 0)
    (ht : code ∉ throttlingCodes) :
    asyncRetryGo delay o attempt (fuel + 1) =
      ⟨some (CallOutcome.clientError code), 1, []⟩ := by
  conv_lhs => unfold asyncRetryGo
  rw [h]
  dsimp only
  rw [if_neg hf, if_neg ht]

/-- A throttling `ClientError` before the last attempt sleeps
`delay * 2 ^ attempt` and retries. -/
theorem asyncRetryGo_client_throttle_step (delay : Rat)
    (o : Nat → CallOutcome) (attempt fuel : Nat) (code : String)
    (h : o attempt = CallOutcome.clientError code) (hf : fuel ≠ 0)
    (ht : code ∈ throttlingCodes) :
    asyncRetryGo delay o attempt (fuel + 1) =
      ⟨(asyncRetryGo delay o (attempt + 1) fuel).result,
       (asyncRetryGo delay o (attempt + 1) fuel).calls + 1,
       delay * 2 ^ attempt ::
         (asyncRetryGo delay o (attempt + 1) fuel).sleeps⟩ := by
  conv_lhs => unfold asyncRetryGo
  rw [h]
  dsimp only
  rw [if_neg hf, if_pos ht]

/-- A non-`ClientError` exception before the last attempt sleeps the fixed
base `delay` and retries. -/
theorem asyncRetryGo_other_step (delay : Rat) (o : Nat → CallOutcome)
    (attempt fuel : Nat) (h : o attempt = CallOutcome.otherError)
    (hf : fuel ≠ 0) :
    asyncRetryGo delay o attempt (fuel + 1) =
      ⟨(asyncRetryGo delay o (attempt + 1) fuel).result,
       (asyncRetryGo delay o (attempt + 1) fuel).calls + 1,
       delay :: (asyncRetryGo delay o (attempt + 1) fuel).sleeps⟩ := by
  conv_lhs => unfold asyncRetryGo
  rw [h]
  dsimp only
  rw [if_neg hf]

/-- Counterexample to C8 as stated: a wrapped operation that keeps raising a
non-`ClientError` exception is not propagated immediately — `async_retry`
calls it 3 times, sleeping the fixed 0.5s base delay between attempts,
before re-raising. -/
theorem asyncRetry_nonClientError_cex :
    asyncRetry 3 (1/2) (fun _ => CallOutcome.otherError) =
      ⟨some CallOutcome.otherError, 3, [1/2, 1/2]⟩ ∧
    (asyncRetry 3 (1/2) (fun _ => CallOutcome.otherError)).calls ≠ 1 ∧
    (asyncRetry 3 (1/2) (fun _ => CallOutcome.otherError)).sleeps ≠ [] := by
  have s2 : asyncRetryGo (1/2) (fun _ => CallOutcome.otherError) 2 1 =
      ⟨some CallOutcome.otherError, 1, []⟩ :=
    asyncRetryGo_last_other (1/2) _ 2 rfl
  have s1 : asyncRetryGo (1/2) (fun _ => CallOutcome.otherError) 1 2 =
      ⟨some CallOutcome.otherError, 2, [1/2]⟩ := by
    show asyncRetryGo (1/2) (fun _ => CallOutcome.otherError) 1 (1 + 1) = _
    rw [asyncRetryGo_other_step (1/2) _ 1 1 rfl (by decide)]
    norm_num [s2]
  have h : asyncRetry 3 (1/2) (fun _ => CallOutcome.otherError) =
      ⟨some CallOutcome.otherError, 3, [1/2, 1/2]⟩ := by
    show asyncRetryGo (1/2) (fun _ => CallOutcome.otherError) 0 (2 + 1) = _
    rw [asyncRetryGo_other_step (1/2) _ 0 2 rfl (by decide)]
    norm_num [s1]
  refine ⟨h, by rw [h]; decide, by rw [h]; simp⟩

/-- C8 (amended): under `async_retry(3, 0.5)`, a non-throttling
`ClientError` propagates immediately (one call, no sleep); a throttling
`ClientError` is retried with exponential backoff (0.5s, then 1s, three
attempts in all before the error is re-raised); a non-`ClientError`
exception is also retried, but with the fixed 0.5s base delay between
attempts rather than propagating immediately. -/
theorem asyncRetry_behavior :
    (∀ (outcomes : Nat → CallOutcome) (code : String),
      outcomes 0 = CallOutcome.clientError code → code ∉ throttlingCodes →
      asyncRetry 3 (1/2) outcomes =
        ⟨some (CallOutcome.clientError code), 1, []⟩) ∧
    (∀ outcomes : Nat → CallOutcome,
      (∀ i, i < 3 → outcomes i =
        CallOutcome.clientError "ThrottlingException") →
      asyncRetry 3 (1/2) outcomes =
        ⟨some (CallOutcome.clientError "ThrottlingException"), 3,
         [1/2, 1]⟩) ∧
    (∀ outcomes : Nat → CallOutcome,
      outcomes 0 = CallOutcome.otherError → outcomes 1 = CallOutcome.ok →
      asyncRetry 3 (1/2) outcomes = ⟨some CallOutcome.ok, 2, [1/2]⟩) := by
  have hthr : "ThrottlingException" ∈ throttlingCodes := by decide
  refine ⟨?_, ?_, ?_⟩
  · intro o code h0 hnc
    show asyncRetryGo (1/2) o 0 (2 + 1) = _
    exact asyncRetryGo_client_nonthrottle (1/2) o 0 2 code h0 (by decide) hnc
  · intro o h
    have h0 := h 0 (by omega)
    have h1 := h 1 (by omega)
    have h2 := h 2 (by omega)
    have s2 : asyncRetryGo (1/2) o 2 1 =
        ⟨some (CallOutcome.clientError "ThrottlingException"), 1, []⟩ :=
      asyncRetryGo_last_client (1/2) o 2 _ h2
    have s1 : asyncRetryGo (1/2) o 1 2 =
        ⟨some (CallOutcome.clientError "ThrottlingException"), 2, [1]⟩ := by
      show asyncRetryGo (1/2) o 1 (1 + 1) = _
      rw [asyncRetryGo_client_throttle_step (1/2) o 1 1 _ h1 (by decide)
        hthr]
      norm_num [s2]
    show asyncRetryGo (1/2) o 0 (2 + 1) = _
    rw [asyncRetryGo_client_throttle_step (1/2) o 0 2 _ h0 (by decide) hthr]
    norm_num [s1]
  · intro o h0 h1
    have s1 : asyncRetryGo (1/2) o 1 2 = ⟨some CallOutcome.ok, 1, []⟩ := by
      show asyncRetryGo (1/2) o 1 (1 + 1) = _
      exact asyncRetryGo_ok (1/2) o 1 1 h1
    show asyncRetryGo (1/2) o 0 (2 + 1) = _
    rw [asyncRetryGo_other_step (1/2) o 0 2 h0 (by decide)]
    norm_num [s1]

/-- Witness for the amended C8 at three concrete outcome streams. -/
theorem asyncRetry_behavior_witness :
    asyncRetry 3 (1/2) (fun _ => CallOutcome.clientError "AccessDenied") =
      ⟨some (CallOutcome.clientError "AccessDenied"), 1, []⟩ ∧
    asyncRetry 3 (1/2)
        (fun _ => CallOutcome.clientError "ThrottlingException") =
      ⟨some (CallOutcome.clientError "ThrottlingException"), 3, [1/2, 1]⟩ ∧
    asyncRetry 3 (1/2)
        (fun i => if i = 0 then CallOutcome.otherError else CallOutcome.ok) =
      ⟨some CallOutcome.ok, 2, [1/2]⟩ :=
  ⟨asyncRetry_behavior.1 (fun _ => CallOutcome.clientError "AccessDenied")
      "AccessDenied" rfl (by decide),
   asyncRetry_behavior.2.1
      (fun _ => CallOutcome.clientError "ThrottlingException")
      (fun _ _ => rfl),
   asyncRetry_behavior.2.2
      (fun i => if i = 0 then CallOutcome.otherError else CallOutcome.ok)
      rfl rfl⟩

/-! ### C9 -/

/-- Counterexample to C9 as stated: a query against the valid case table
with the unknown index name `NoSuchIndex` is not rejected — the tool
reports success and issues a store query carrying the unknown index, so no
`InvalidIndexError` occurs before the store call. -/
theorem queryTool_unknown_index_reaches_store_cex :
    (queryToolRun "ptr_dispute_resol_case_db" "query"
        (some ["transaction_id"]) none (some "NoSuchIndex") none none none
        none).1.success = true ∧
    (queryToolRun "ptr_dispute_resol_case_db" "query"
        (some ["transaction_id"]) none (some "NoSuchIndex") none none none
        none).2 =
      [StoreCall.query "ptr_dispute_resol_case_db" ["transaction_id"] none
        (some "NoSuchIndex") none none] ∧
    "NoSuchIndex" ∉ ["TransactionIndex", "CustomerIndex"] := by
  decide

/-- C9 (amended): a table name outside the two-table allow-list fails
before any store call; index names, however, are never validated — for a
valid table, a `query` operation with a well-formed key condition issues
exactly one store call that carries whatever index name was supplied. -/
theorem queryTool_table_validated_index_not
    (table_name operation : String)
    (kc fe atg itd ue : Option (List String))
    (idx : Option String) (lim : Option Nat) :
    (table_name ∉ validTables →
      queryToolRun table_name operation kc fe idx atg lim itd ue =
        (⟨false,
          some "Invalid table name. Must be one of the allowed tables"⟩,
         [])) ∧
    (table_name ∈ validTables → ∀ ks, truthy kc = some ks →
      queryToolRun table_name "query" kc fe idx atg lim itd ue =
        (⟨true, none⟩,
         [StoreCall.query table_name ks (truthy fe) idx (truthy atg)
            (truthyNat lim)])) := by
  constructor
  · intro h
    unfold queryToolRun
    rw [if_neg h]
  · intro h ks hks
    unfold queryToolRun
    rw [if_pos h, if_pos rfl]
    unfold executeQuery
    rw [hks]

/-- Witness for the amended C9: an unknown table is rejected with no store
call; a valid-table query with the unknown index `NoSuchIndex` issues the
store call anyway. -/
theorem queryTool_table_validated_index_not_witness :
    queryToolRun "cases" "query" (some ["case_id"]) none none none none
        none none =
      (⟨false, some "Invalid table name. Must be one of the allowed tables"⟩,
       []) ∧
    queryToolRun "ptr_dispute_resol_case_db" "query" (some ["case_id"])
        none (some "NoSuchIndex") none none none none =
      (⟨true, none⟩,
       [StoreCall.query "ptr_dispute_resol_case_db" ["case_id"] none
          (some "NoSuchIndex") none none]) :=
  ⟨(queryTool_table_validated_index_not "cases" "query" (some ["case_id"])
      none none none none none none).1 (by decide),
   (queryTool_table_validated_index_not "ptr_dispute_resol_case_db" "query"
      (some ["case_id"]) none none none none (some "NoSuchIndex") none).2
     (by decide) ["case_id"] rfl⟩

end MCPPayment
